import Mathlib

/-!
Verification of the top1-streamlit-viewer repository.

The repository has two Python source files:
* `app.py` — a viewer/backtester: loads yearly spreadsheets into one table
  (`load_top1_data`), filters by date range and weekday, and runs a
  close-to-next-open backtest (`backtest_next_open`).
* `data_create.py` — a collector: per trading day picks the top ticker by
  volume and by value (`get_top1_by_day`) and writes one spreadsheet per
  (year, rank_type) partition (`main`).

Modelling conventions of this shallow embedding:
* pandas float arithmetic is modelled over `ℚ`; `x / 0` is the junk value `0`
  in `ℚ` (Python floats give `inf` there — no exception is raised in either
  model, which is what the error-handling claims are about).
* a pandas timestamp is modelled as `PDate`: a serial day number (days since
  1970-01-01, a Thursday) used for ordering and weekday, plus the calendar
  year carried as a field (the `.dt.year` accessor).
* a DataFrame is a `Frame`: the list of column names plus the list of rows;
  a row carries `Option`-valued cells (`none` = NaN/NaT) for the columns the
  claims touch and an opaque association list for the rest.
* `pd.Series.clip(lower, upper)` is `min (max x lower) upper`, matching
  numpy/pandas clip semantics (also when lower > upper).
* Python's pair return `(stats, err)` is kept as `Option Stats × Option String`.
-/

/-- A pandas timestamp: serial day number (1970-01-01 = 0, a Thursday) and
the calendar year exposed by `.dt.year`. -/
structure PDate where
  serial : ℤ
  year : ℤ
deriving DecidableEq, Repr

/-- `.dt.weekday` (Monday = 0): day 0 is a Thursday, so weekday 3. -/
def PDate.weekday (d : PDate) : ℤ := (d.serial + 3) % 7

/-- One row of the loaded table.  `none` models NaN/NaT.  `dp1_open` is the
column written `d+1_open` in the spreadsheets.  `rest` stands for all the
other columns (OHLCV, investor flows, index closes, …), which the viewer
passes through untouched. -/
structure Row where
  date : Option PDate
  year : Option ℤ
  d0_close : Option ℚ
  dp1_open : Option ℚ
  rest : List (String × Option ℚ)
deriving DecidableEq, Repr

/-- A DataFrame: column names plus rows. -/
structure Frame where
  cols : List String
  rows : List Row
deriving DecidableEq, Repr

/-- The empty `pd.DataFrame()`. -/
def emptyFrame : Frame := ⟨[], []⟩

/-! ### Sorting by date (`sort_values("date")`)

Null dates (NaT) sort last, as with pandas `na_position='last'`. -/

/-- Comparison used by `sort_values("date")`: order by the date serial,
nulls last. -/
def dateLeB (a b : Row) : Bool :=
  match a.date, b.date with
  | some x, some y => decide (x.serial ≤ y.serial)
  | some _, none => true
  | none, some _ => false
  | none, none => true

/-- Insert a row into a date-sorted list. -/
def insertByDate (r : Row) : List Row → List Row
  | [] => [r]
  | x :: xs => if dateLeB r x then r :: x :: xs else x :: insertByDate r xs

/-- Sort rows by date ascending (insertion sort). -/
def sortByDate : List Row → List Row
  | [] => []
  | x :: xs => insertByDate x (sortByDate xs)

theorem dateLeB_total (a b : Row) : dateLeB a b = true ∨ dateLeB b a = true := by
  rcases ha : a.date with _ | x <;> rcases hb : b.date with _ | y <;>
    simp [dateLeB, ha, hb]
  exact le_total x.serial y.serial

theorem dateLeB_trans {a b c : Row} (h1 : dateLeB a b = true) (h2 : dateLeB b c = true) :
    dateLeB a c = true := by
  rcases ha : a.date with _ | x <;> rcases hb : b.date with _ | y <;>
      rcases hc : c.date with _ | z <;>
    simp_all [dateLeB] <;> omega

theorem mem_insertByDate {x r : Row} {l : List Row} :
    x ∈ insertByDate r l ↔ x = r ∨ x ∈ l := by
  induction l with
  | nil => simp [insertByDate]
  | cons a as ih =>
    by_cases h : dateLeB r a = true
    · simp [insertByDate, h, List.mem_cons]
    · simp only [insertByDate, if_neg h, List.mem_cons, ih]
      tauto

theorem pairwise_insertByDate {r : Row} {l : List Row}
    (h : l.Pairwise (fun a b => dateLeB a b = true)) :
    (insertByDate r l).Pairwise (fun a b => dateLeB a b = true) := by
  induction l with
  | nil => simp [insertByDate]
  | cons a as ih =>
    rcases List.pairwise_cons.mp h with ⟨ha, has⟩
    by_cases h1 : dateLeB r a = true
    · simp only [insertByDate, if_pos h1]
      refine List.pairwise_cons.mpr ⟨?_, h⟩
      intro b hb
      rcases List.mem_cons.mp hb with rfl | hb
      · exact h1
      · exact dateLeB_trans h1 (ha b hb)
    · simp only [insertByDate, if_neg h1]
      refine List.pairwise_cons.mpr ⟨?_, ih has⟩
      intro b hb
      rcases mem_insertByDate.mp hb with rfl | hb
      · exact (dateLeB_total b a).resolve_left h1
      · exact ha b hb

theorem sortByDate_pairwise (l : List Row) :
    (sortByDate l).Pairwise (fun a b => dateLeB a b = true) := by
  induction l with
  | nil => simp [sortByDate]
  | cons a as ih => exact pairwise_insertByDate ih

theorem insertByDate_perm (r : Row) (l : List Row) : List.Perm (insertByDate r l) (r :: l) := by
  induction l with
  | nil => rfl
  | cons a as ih =>
    by_cases h : dateLeB r a = true
    · simp [insertByDate, h]
    · simp only [insertByDate, if_neg h]
      exact (ih.cons a).trans (List.Perm.swap r a as)

theorem sortByDate_perm (l : List Row) : List.Perm (sortByDate l) l := by
  induction l with
  | nil => rfl
  | cons a as ih => exact (insertByDate_perm a (sortByDate as)).trans (ih.cons a)

/-! ### The backtest (`backtest_next_open`, app.py lines 95–149) -/

/-- The `required_cols` set of `backtest_next_open`. -/
def requiredCols : List String := ["d0_close", "d+1_open", "date"]

/-- The `dropna(subset=["d0_close", "d+1_open", "date"])` predicate: the row
is kept iff all three cells are non-null. -/
def keepRow (r : Row) : Bool :=
  r.d0_close.isSome && r.dp1_open.isSome && r.date.isSome

/-- A retained row reduced to the cells the backtest arithmetic reads. -/
structure Trade where
  date : ℤ
  close : ℚ
  nextOpen : ℚ
deriving DecidableEq, Repr

/-- Extract the trade cells from a retained row (only applied to rows that
pass `keepRow`, so the defaults are never read). -/
def toTrade (r : Row) : Trade :=
  ⟨(r.date.getD ⟨0, 0⟩).serial, r.d0_close.getD 0, r.dp1_open.getD 0⟩

/-- `Series.clip(lower, upper)` on one value: `min (max x lower) upper`. -/
def clipQ (lo hi x : ℚ) : ℚ := min (max x lo) hi

/-- The fee haircut applied to a clipped return:
`net = (1 + clipped) * (1 - fee) - 1` with `fee = fee_pct / 100`. -/
def netFromClipped (fee c : ℚ) : ℚ := (1 + c) * (1 - fee) - 1

/-- Lines 117–127 on one trade: raw return `d+1_open / d0_close - 1`,
clipped to `[lower_pct/100, upper_pct/100]`, then the fee haircut. -/
def netOfTrade (upper_pct lower_pct fee_pct : ℚ) (t : Trade) : ℚ :=
  netFromClipped (fee_pct / 100)
    (clipQ (lower_pct / 100) (upper_pct / 100) (t.nextOpen / t.close - 1))

/-- Per-row net return, reading the cells off the row. -/
def netOfRow (upper_pct lower_pct fee_pct : ℚ) (r : Row) : ℚ :=
  netOfTrade upper_pct lower_pct fee_pct (toTrade r)

/-- `capital * (1 + net_ret).cumprod()`: running scaled product. -/
def equitiesFrom (cap : ℚ) : List ℚ → List ℚ
  | [] => []
  | f :: fs => cap * f :: equitiesFrom (cap * f) fs

/-- Retained rows, date-sorted, as trades: the series the backtest compounds. -/
def btTrades (df : Frame) : List Trade :=
  (sortByDate (df.rows.filter keepRow)).map toTrade

/-- The `net_ret` column, in date order. -/
def btNets (df : Frame) (upper_pct lower_pct fee_pct : ℚ) : List ℚ :=
  (btTrades df).map (netOfTrade upper_pct lower_pct fee_pct)

/-- The `equity` column, in date order. -/
def btEquities (df : Frame) (upper_pct lower_pct fee_pct capital : ℚ) : List ℚ :=
  equitiesFrom capital ((btNets df upper_pct lower_pct fee_pct).map (fun n => 1 + n))

theorem equitiesFrom_eq_range_map (fs : List ℚ) : ∀ cap : ℚ,
    equitiesFrom cap fs =
      (List.range fs.length).map (fun i => cap * ((fs.take (i + 1)).prod)) := by
  induction fs with
  | nil => intro cap; rfl
  | cons f fs ih =>
    intro cap
    simp only [equitiesFrom, List.length_cons, List.range_succ_eq_map, List.map_cons,
      List.take_succ_cons, List.prod_cons, List.map_map, ih (cap * f)]
    refine congrArg₂ _ (by simp) ?_
    refine List.map_congr_left ?_
    intro i _
    simp only [Function.comp_apply, List.take_succ_cons, List.prod_cons]
    ring

/-- The `stats` dictionary returned on success. -/
structure Stats where
  n_trades : ℕ
  wins : ℕ
  win_rate : ℚ
  avg_ret : ℚ
  total_ret : ℚ
  final_equity : ℚ
  equity_series : List (ℤ × ℚ)
deriving DecidableEq, Repr

/-- The `stats` dictionary assembled on the success path (lines 133–148). -/
def btStats (df : Frame) (upper_pct lower_pct fee_pct capital : ℚ) : Stats :=
  let trades := btTrades df
  let nets := btNets df upper_pct lower_pct fee_pct
  let equities := btEquities df upper_pct lower_pct fee_pct capital
  let n_trades := trades.length
  let wins := nets.countP (fun n => decide (0 < n))
  { n_trades := n_trades
    wins := wins
    win_rate := if 0 < n_trades then (wins : ℚ) / (n_trades : ℚ) * 100 else 0
    avg_ret := if 0 < n_trades then nets.sum / (n_trades : ℚ) * 100 else 0
    total_ret := if 0 < n_trades then (equities.getLastD capital / capital - 1) * 100 else 0
    final_equity := if 0 < n_trades then equities.getLastD capital else capital
    equity_series := (trades.map Trade.date).zip equities }

/-- `backtest_next_open` (app.py lines 95–149).  Returns the Python pair
`(stats, err)`.  Checks the required columns, drops null rows, computes the
clipped/fee-adjusted returns, sorts by date, compounds the equity curve and
assembles the statistics. -/
def backtest_next_open (df : Frame) (upper_pct lower_pct fee_pct capital : ℚ) :
    Option Stats × Option String :=
  if requiredCols.all (· ∈ df.cols) then
    if (df.rows.filter keepRow).isEmpty then
      (none, some "유효한 데이터가 없습니다 (d0_close 또는 d+1_open NaN)")
    else
      (some (btStats df upper_pct lower_pct fee_pct capital), none)
  else
    (none, some "필요 컬럼 부족")

theorem backtest_success {df : Frame} (upper_pct lower_pct fee_pct capital : ℚ)
    (hcols : requiredCols.all (· ∈ df.cols) = true)
    (hrows : df.rows.filter keepRow ≠ []) :
    backtest_next_open df upper_pct lower_pct fee_pct capital =
      (some (btStats df upper_pct lower_pct fee_pct capital), none) := by
  unfold backtest_next_open
  rw [if_pos hcols, if_neg (by simpa using hrows)]

/-! ### Dataset loading (`load_top1_data`, app.py lines 47–83) and the
viewer gate (lines 163–167) -/

/-- `range(START_YEAR, END_YEAR + 1)`: the years 2000 through 2025. -/
def yearRangeList : List ℕ := (List.range 26).map (fun i => 2000 + i)

/-- `prefix = "top1_volume" if kind == "volume" else "top1_value"`. -/
def prefixOf (kind : String) : String :=
  if kind = "volume" then "top1_volume" else "top1_value"

/-- The file name `{prefix}_{year}.xlsx` probed by the loader. -/
def fileNameOf (pre : String) (y : ℕ) : String :=
  pre ++ "_" ++ toString y ++ ".xlsx"

/-- `pd.to_datetime` on the date column: dates in the model are already
typed, so the coercion is the identity. -/
def coerceDates (df : Frame) : Frame := df

/-- Lines 72–74: derive the `year` column from `date.dt.year` when absent. -/
def addYearColumn (df : Frame) : Frame :=
  if "year" ∈ df.cols then df
  else ⟨df.cols ++ ["year"], df.rows.map (fun r => { r with year := r.date.map PDate.year })⟩

/-- One iteration of the loader's year loop: `none` when the file is missing
or (lines 66–70) lacks a `date` column; otherwise the file with its date
column coerced and a `year` column derived if absent. -/
def readYearFile (fs : String → Option Frame) (pre : String) (y : ℕ) : Option Frame :=
  match fs (fileNameOf pre y) with
  | none => none
  | some df => if "date" ∈ df.cols then some (addYearColumn (coerceDates df)) else none

/-- `pd.concat(dfs, ignore_index=True)`: union of columns, rows appended. -/
def concatFrames (dfs : List Frame) : Frame :=
  ⟨(dfs.map Frame.cols).foldr (fun a b => a ∪ b) [], (dfs.map Frame.rows).flatten⟩

/-- `load_top1_data` (app.py lines 47–83): probe the 26 yearly files, skip
missing and date-less ones, concatenate and sort by date ascending; the
empty DataFrame when no file was found. -/
def load_top1_data (fs : String → Option Frame) (kind : String) : Frame :=
  let dfs := yearRangeList.filterMap (readYearFile fs (prefixOf kind))
  if dfs.isEmpty then emptyFrame
  else
    let all := concatFrames dfs
    ⟨all.cols, sortByDate all.rows⟩

/-- Lines 163–167: the viewer halts with `st.error`/`st.stop` when the
loaded table is empty, and only otherwise proceeds to the filter and
backtest stages with the loaded table. -/
def viewerGate (fs : String → Option Frame) (kind : String) : Except String Frame :=
  let df_all := load_top1_data fs kind
  if df_all.rows.isEmpty then
    Except.error "엑셀 데이터를 찾을 수 없습니다."
  else
    Except.ok df_all

/-! ### The viewer's date-range and weekday filter (app.py lines 197–201) -/

/-- Line 197: `(df_all["date"] >= start) & (df_all["date"] <= end)`.
A NaT date compares false on both sides, so such a row is dropped. -/
def inRange (startD endD : ℤ) (r : Row) : Bool :=
  match r.date with
  | some d => decide (startD ≤ d.serial) && decide (d.serial ≤ endD)
  | none => false

/-- Line 201: `df_view["date"].dt.weekday != 4`.  A NaT date yields NaN,
and `NaN != 4` is true, so such a row is kept by this filter. -/
def notFriday (r : Row) : Bool :=
  match r.date with
  | some d => decide (¬ d.weekday = 4)
  | none => true

/-- Lines 197–201: restrict to the chosen date interval, then optionally
drop Friday rows. -/
def dfViewOf (df : List Row) (startD endD : ℤ) (excludeFriday : Bool) : List Row :=
  let base := df.filter (inRange startD endD)
  if excludeFriday then base.filter notFriday else base

/-! ### The collector: daily top-1 extraction
(`get_top1_by_day`, data_create.py lines 126–192)

The external provider is abstracted as functions: `fetch` is
`stock.get_market_ohlcv_by_ticker` (`none` = the `except: continue` path),
`etfs` is `stock.get_etf_ticker_list`, `nameOf` is
`stock.get_market_ticker_name` (`none` = its `except` path, which the code
maps to the empty string). -/

/-- One row of the per-day market snapshot, indexed by ticker. -/
structure SnapRow where
  openP : ℚ
  highP : ℚ
  lowP : ℚ
  closeP : ℚ
  volume : ℚ
  value : ℚ
deriving DecidableEq, Repr

/-- One record emitted by the collector. -/
structure TopRec where
  date : ℤ
  rank_type : String
  ticker : String
  name : String
  d0_open : ℚ
  d0_high : ℚ
  d0_low : ℚ
  d0_close : ℚ
  d0_volume : ℚ
  d0_value : ℚ
deriving DecidableEq, Repr

/-- `idxmax` over a nonempty snapshot, given as head plus tail: the first
row attaining the maximum of `f` (later rows replace only on strictly
greater). -/
def pickTop (f : SnapRow → ℚ) (x : String × SnapRow) (xs : List (String × SnapRow)) :
    String × SnapRow :=
  xs.foldl (fun best p => if f best.2 < f p.2 then p else best) x

/-- Lines 163–188: assemble one emitted record from the chosen row. -/
def mkTopRec (d : ℤ) (rt : String) (nameOf : String → Option String)
    (p : String × SnapRow) : TopRec :=
  ⟨d, rt, p.1, (nameOf p.1).getD "", p.2.openP, p.2.highP, p.2.lowP, p.2.closeP,
    p.2.volume, p.2.value⟩

/-- The records one trading day contributes (the body of the day loop,
lines 130–190): none when the snapshot fetch failed or the snapshot is
empty after ETF exclusion, otherwise the VOLUME_TOP and VALUE_TOP pair. -/
def dayRecords (fetch : ℤ → Option (List (String × SnapRow))) (etfs : ℤ → List String)
    (nameOf : String → Option String) (d : ℤ) : List TopRec :=
  match fetch d with
  | none => []
  | some snap =>
    match snap.filter (fun p => decide (p.1 ∉ etfs d)) with
    | [] => []
    | x :: xs =>
      [mkTopRec d "VOLUME_TOP" nameOf (pickTop SnapRow.volume x xs),
       mkTopRec d "VALUE_TOP" nameOf (pickTop SnapRow.value x xs)]

/-- `get_top1_by_day` (data_create.py lines 126–192): concatenate each
trading day's contribution. -/
def get_top1_by_day (fetch : ℤ → Option (List (String × SnapRow)))
    (etfs : ℤ → List String) (nameOf : String → Option String)
    (trading_days : List ℤ) : List TopRec :=
  trading_days.flatMap (dayRecords fetch etfs nameOf)

/-! ### The collector's yearly writer (`main`, data_create.py lines 341–357) -/

/-- One row of the final merged table, reduced to the fields the save loop
reads: the partition keys and the three-column sort key. -/
structure FinalRow where
  date : ℤ
  rank_type : String
  ticker : String
  year : ℤ
deriving DecidableEq, Repr

/-- `sort_values(["date", "rank_type", "ticker"])` comparison. -/
def rowLe3 (a b : FinalRow) : Bool :=
  if a.date < b.date then true
  else if b.date < a.date then false
  else if a.rank_type < b.rank_type then true
  else if b.rank_type < a.rank_type then false
  else decide (a.ticker ≤ b.ticker)

/-- Insertion for the three-key sort. -/
def insertRows3 (r : FinalRow) : List FinalRow → List FinalRow
  | [] => [r]
  | x :: xs => if rowLe3 r x then r :: x :: xs else x :: insertRows3 r xs

/-- The three-key sort of a year's partition. -/
def sortRows3 : List FinalRow → List FinalRow
  | [] => []
  | x :: xs => insertRows3 x (sortRows3 xs)

/-- `f"top1_volume_{year}.xlsx"`. -/
def volFileName (y : ℤ) : String := "top1_volume_" ++ toString y ++ ".xlsx"

/-- `f"top1_value_{year}.xlsx"`. -/
def valFileName (y : ℤ) : String := "top1_value_" ++ toString y ++ ".xlsx"

/-- The year's sorted VOLUME_TOP partition (`df_vol`, line 347). -/
def volPartition (df : List FinalRow) (y : ℤ) : List FinalRow :=
  (sortRows3 (df.filter (fun r => decide (r.year = y)))).filter
    (fun r => decide (r.rank_type = "VOLUME_TOP"))

/-- The year's sorted VALUE_TOP partition (`df_val`, line 353). -/
def valPartition (df : List FinalRow) (y : ℤ) : List FinalRow :=
  (sortRows3 (df.filter (fun r => decide (r.year = y)))).filter
    (fun r => decide (r.rank_type = "VALUE_TOP"))

/-- One iteration of the year loop (lines 341–357): skip years outside
[2000, 2025], then write each nonempty rank partition to its file.  A write
is the pair (file name, rows written). -/
def yearWrites (df : List FinalRow) (y : ℤ) : List (String × List FinalRow) :=
  if y < 2000 ∨ 2025 < y then []
  else
    (if volPartition df y = [] then [] else [(volFileName y, volPartition df y)]) ++
    (if valPartition df y = [] then [] else [(valFileName y, valPartition df y)])

/-- The full save loop: `groupby("year")` iterates each distinct year once
(modelled by `dedup`; the iteration order is irrelevant to the claims). -/
def saveWrites (df : List FinalRow) : List (String × List FinalRow) :=
  ((df.map FinalRow.year).dedup).flatMap (yearWrites df)

/-! ### Counting helpers shared by the collector claims -/

theorem countP_flatMap_eq_zero {α β : Type} (g : β → List α) (p : α → Bool)
    (l : List β) (h : ∀ b ∈ l, (g b).countP p = 0) :
    (l.flatMap g).countP p = 0 := by
  induction l with
  | nil => rfl
  | cons b rest ih =>
    rw [List.flatMap_cons, List.countP_append, h b (List.mem_cons_self b rest),
      ih (fun b' hb' => h b' (List.mem_cons_of_mem b hb'))]

theorem countP_flatMap_le_one {α β : Type} (g : β → List α) (p : α → Bool)
    (l : List β) (hnd : l.Nodup) (key : β)
    (h1 : (g key).countP p ≤ 1)
    (h0 : ∀ b ∈ l, b ≠ key → (g b).countP p = 0) :
    (l.flatMap g).countP p ≤ 1 := by
  induction l with
  | nil => exact Nat.zero_le 1
  | cons b rest ih =>
    rw [List.flatMap_cons, List.countP_append]
    rcases List.nodup_cons.mp hnd with ⟨hbn, hrest⟩
    by_cases hb : b = key
    · subst hb
      have hz : (rest.flatMap g).countP p = 0 :=
        countP_flatMap_eq_zero g p rest
          (fun b' hb' => h0 b' (List.mem_cons_of_mem b hb')
            (fun he => hbn (he ▸ hb')))
      omega
    · have hz : (g b).countP p = 0 := h0 b (List.mem_cons_self b rest) hb
      have := ih hrest (fun b' hb' => h0 b' (List.mem_cons_of_mem b hb'))
      omega

/-! ### Concrete inputs used by the examples and witnesses -/

/-- The spec's worked example row: close 100, next open 103. -/
def exRow : Row := ⟨some ⟨0, 2020⟩, none, some 100, some 103, []⟩

/-- A one-row table with exactly the required columns. -/
def exFrame : Frame := ⟨requiredCols, [exRow]⟩

/-- A retained row whose same-day close is zero. -/
def zeroCloseRow : Row := ⟨some ⟨0, 2020⟩, none, some 0, some 5, []⟩

/-- A one-row table containing the zero-close row. -/
def zeroCloseFrame : Frame := ⟨requiredCols, [zeroCloseRow]⟩

/-! ### Claims -/

/-- C1: for every input row retained by the backtest, the per-row net
return equals `(1 + clamp(d+1_open / d0_close - 1, L/100, U/100)) * (1 - F/100) - 1`
(fee haircut applied multiplicatively after clipping); and on the example
close 100, next open 103, U 3, L −1, F 0.5, C 1 000 000 the net return is
0.02485 and the equity 1 024 850. -/
theorem net_return_formula_and_example :
    (∀ (u l f : ℚ) (r : Row),
        netOfRow u l f r =
          (1 + min (max (r.dp1_open.getD 0 / r.d0_close.getD 0 - 1) (l / 100)) (u / 100))
            * (1 - f / 100) - 1) ∧
    netOfRow 3 (-1) (1 / 2) exRow = 2485 / 100000 ∧
    backtest_next_open exFrame 3 (-1) (1 / 2) 1000000 =
      (some ⟨1, 1, 100, 497 / 200, 497 / 200, 1024850, [(0, 1024850)]⟩, none) := by
  refine ⟨fun u l f r => rfl, ?_, ?_⟩
  · norm_num [netOfRow, netOfTrade, netFromClipped, clipQ, toTrade, exRow, min_def, max_def]
  · rw [backtest_success 3 (-1) (1 / 2) 1000000 (by decide) (by decide)]
    have h1 : btTrades exFrame = [⟨0, 100, 103⟩] := rfl
    have h2 : btNets exFrame 3 (-1) (1 / 2) = [netOfTrade 3 (-1) (1 / 2) ⟨0, 100, 103⟩] := rfl
    have h3 : netOfTrade 3 (-1) (1 / 2) ⟨0, 100, 103⟩ = 497 / 20000 := by
      norm_num [netOfTrade, netFromClipped, clipQ, min_def, max_def]
    have h6 : netOfTrade 3 (-1) (1 / 2) (toTrade exRow) = 497 / 20000 := h3
    simp only [btStats, btEquities, h1, h2, h3, equitiesFrom]
    norm_num [Stats.mk.injEq, List.countP, List.countP.go, h6]

/-- C4: the clipped return lies within `[L/100, U/100]` whenever `L ≤ U`,
and when `L > U` the clamp still uses `L/100` as lower and `U/100` as upper
bound, so the clipped return collapses to one of the two bounds. -/
theorem clipped_return_bounds (u l x : ℚ) :
    (l ≤ u → l / 100 ≤ clipQ (l / 100) (u / 100) x ∧ clipQ (l / 100) (u / 100) x ≤ u / 100) ∧
    (u < l → clipQ (l / 100) (u / 100) x = u / 100 ∨ clipQ (l / 100) (u / 100) x = l / 100) := by
  constructor
  · intro hlu
    have h100 : l / 100 ≤ u / 100 := by linarith
    exact ⟨le_min (le_max_right _ _) h100, min_le_right _ _⟩
  · intro hul
    have h100 : u / 100 ≤ l / 100 := by linarith
    exact Or.inl (min_eq_right (h100.trans (le_max_right _ _)))

theorem clipped_return_bounds_witness :
    ((-1 : ℚ) / 100 ≤ clipQ ((-1) / 100) (3 / 100) 5 ∧
      clipQ ((-1 : ℚ) / 100) (3 / 100) 5 ≤ 3 / 100) ∧
    (clipQ ((3 : ℚ) / 100) ((-1) / 100) 5 = (-1) / 100 ∨
      clipQ ((3 : ℚ) / 100) ((-1) / 100) 5 = 3 / 100) :=
  ⟨(clipped_return_bounds 3 (-1) 5).1 (by norm_num),
   (clipped_return_bounds (-1) 3 5).2 (by norm_num)⟩

/-- C5: for fixed fee percentage `0 ≤ F < 100`, the net-return map
`c ↦ (1 + c) * (1 - F/100) - 1` is monotonically non-decreasing in the
clipped return. -/
theorem net_return_monotone (F c1 c2 : ℚ) (hF0 : 0 ≤ F) (hF : F < 100) (hc : c1 ≤ c2) :
    netFromClipped (F / 100) c1 ≤ netFromClipped (F / 100) c2 := by
  unfold netFromClipped
  have hfee : (0 : ℚ) ≤ 1 - F / 100 := by linarith
  have := mul_le_mul_of_nonneg_right (add_le_add_left hc 1) hfee
  linarith

theorem net_return_monotone_witness :
    netFromClipped ((50 : ℚ) / 100) 0 ≤ netFromClipped ((50 : ℚ) / 100) (1 / 100) :=
  net_return_monotone 50 0 (1 / 100) (by norm_num) (by norm_num) (by norm_num)

/-- C2: the backtest sorts the retained rows by date ascending (the equity
curve is computed over a date-sorted permutation of the retained rows) and
compounds `equity[i] = capital * Π_{j ≤ i} (1 + net_return[j])`; hence on a
one-row input `final_equity = capital * (1 + net_return)` and the win rate
is 0 or 100. -/
theorem backtest_sorts_and_compounds :
    (∀ df : Frame,
        (sortByDate (df.rows.filter keepRow)).Pairwise (fun a b => dateLeB a b = true) ∧
        List.Perm (sortByDate (df.rows.filter keepRow)) (df.rows.filter keepRow)) ∧
    (∀ (df : Frame) (u l f cap : ℚ),
        btEquities df u l f cap =
          (List.range (btNets df u l f).length).map
            (fun i => cap * (((btNets df u l f).take (i + 1)).map (fun n => 1 + n)).prod)) ∧
    (∀ (r : Row) (u l f cap : ℚ), keepRow r = true →
        ∃ s : Stats, backtest_next_open ⟨requiredCols, [r]⟩ u l f cap = (some s, none) ∧
          s.final_equity = cap * (1 + netOfRow u l f r) ∧
          (s.win_rate = 0 ∨ s.win_rate = 100)) := by
  refine ⟨fun df => ⟨sortByDate_pairwise _, sortByDate_perm _⟩, ?_, ?_⟩
  · intro df u l f cap
    rw [btEquities, equitiesFrom_eq_range_map]
    simp only [List.length_map]
    refine List.map_congr_left ?_
    intro i _
    rw [← List.map_take]
  · intro r u l f cap h
    have hfil : (Frame.mk requiredCols [r]).rows.filter keepRow = [r] := by
      simp [h]
    have hcols : requiredCols.all (· ∈ (Frame.mk requiredCols [r]).cols) = true :=
      (by decide : requiredCols.all (· ∈ requiredCols) = true)
    have htr : btTrades ⟨requiredCols, [r]⟩ = [toTrade r] := by
      rw [btTrades, hfil]
      rfl
    refine ⟨btStats ⟨requiredCols, [r]⟩ u l f cap,
      backtest_success u l f cap hcols (by rw [hfil]; exact List.cons_ne_nil r []), ?_, ?_⟩
    · simp [btStats, btEquities, btNets, htr, equitiesFrom, netOfRow]
    · by_cases hn : 0 < netOfTrade u l f (toTrade r)
      · right
        simp [btStats, btNets, htr, List.countP, List.countP.go, hn]
      · left
        simp [btStats, btNets, htr, List.countP, List.countP.go, hn]

theorem backtest_sorts_and_compounds_witness :
    ∃ s : Stats,
      backtest_next_open ⟨requiredCols, [exRow]⟩ 3 (-1) (1 / 2) 1000000 = (some s, none) ∧
      s.final_equity = 1000000 * (1 + netOfRow 3 (-1) (1 / 2) exRow) ∧
      (s.win_rate = 0 ∨ s.win_rate = 100) :=
  backtest_sorts_and_compounds.2.2 exRow 3 (-1) (1 / 2) 1000000 (by decide)

/-- C3: the backtest reports a textual failure iff a required column among
{d0_close, d+1_open, date} is absent or zero rows survive the null-drop;
it never throws (the model is a total function), and it returns statistics
exactly when it returns no reason — never both. -/
theorem backtest_failure_iff (df : Frame) (u l f cap : ℚ) :
    ((backtest_next_open df u l f cap).2 ≠ none ↔
      (¬ ("d0_close" ∈ df.cols ∧ "d+1_open" ∈ df.cols ∧ "date" ∈ df.cols) ∨
        df.rows.filter keepRow = [])) ∧
    ((backtest_next_open df u l f cap).1.isSome = true ↔
      (backtest_next_open df u l f cap).2 = none) := by
  have hall : (requiredCols.all (· ∈ df.cols) = true) ↔
      ("d0_close" ∈ df.cols ∧ "d+1_open" ∈ df.cols ∧ "date" ∈ df.cols) := by
    simp [requiredCols]
  unfold backtest_next_open
  by_cases hc : requiredCols.all (· ∈ df.cols) = true
  · rw [if_pos hc]
    by_cases he : (df.rows.filter keepRow).isEmpty = true
    · rw [if_pos he]
      refine ⟨⟨fun _ => Or.inr (List.isEmpty_iff.mp he), fun _ => by simp⟩, by simp⟩
    · rw [if_neg he]
      refine ⟨⟨fun hn => absurd rfl hn, fun hx => ?_⟩, by simp⟩
      rcases hx with hx | hx
      · exact absurd (hall.mp hc) hx
      · exact absurd (List.isEmpty_iff.mpr hx) he
  · rw [if_neg hc]
    refine ⟨⟨fun _ => Or.inl (fun hx => hc (hall.mpr hx)), fun _ => by simp⟩, by simp⟩

theorem backtest_failure_iff_witness :
    (backtest_next_open emptyFrame 3 (-1) (1 / 2) 1000000).2 ≠ none :=
  (backtest_failure_iff emptyFrame 3 (-1) (1 / 2) 1000000).1.mpr
    (Or.inl (by simp [emptyFrame]))

/-- C9: the null-drop does not exclude rows with a zero same-day close, and
the division `d+1_open / d0_close` is unguarded: on a one-row input with
`d0_close = 0` (non-null next open and date) the backtest returns a success
whose single trade and equity are computed through that division, not a
failure. -/
theorem zero_close_no_guard :
    (∀ (df : Frame) (r : Row), r ∈ df.rows → r.d0_close = some 0 →
        r.dp1_open.isSome = true → r.date.isSome = true →
        r ∈ df.rows.filter keepRow) ∧
    (∃ s : Stats,
        backtest_next_open zeroCloseFrame 3 (-1) (1 / 2) 1000000 = (some s, none) ∧
        s.n_trades = 1 ∧
        s.equity_series = [(0, 1000000 * (1 + netOfTrade 3 (-1) (1 / 2) ⟨0, 0, 5⟩))]) := by
  constructor
  · intro df r hmem h0 h1 h2
    refine List.mem_filter.mpr ⟨hmem, ?_⟩
    simp [keepRow, h0, h1, h2]
  · have htr : btTrades zeroCloseFrame = [⟨0, 0, 5⟩] := rfl
    refine ⟨btStats zeroCloseFrame 3 (-1) (1 / 2) 1000000,
      backtest_success _ _ _ _
        ((by decide : requiredCols.all (· ∈ requiredCols) = true)) (by decide), ?_, ?_⟩
    · simp [btStats, htr]
    · simp only [btStats, htr, btEquities, btNets, equitiesFrom, List.map_cons,
        List.map_nil, List.zip_cons_cons, List.zip_nil_right]
      rfl

theorem zero_close_no_guard_witness :
    zeroCloseRow ∈ zeroCloseFrame.rows.filter keepRow :=
  zero_close_no_guard.1 zeroCloseFrame zeroCloseRow (List.mem_singleton.mpr rfl) rfl rfl rfl

theorem inRange_eq_true {s e : ℤ} {r : Row} :
    inRange s e r = true ↔ ∃ d, r.date = some d ∧ s ≤ d.serial ∧ d.serial ≤ e := by
  rcases hd : r.date with _ | d <;> simp [inRange, hd]

theorem notFriday_eq_true {r : Row} :
    notFriday r = true ↔ ∀ d : PDate, r.date = some d → ¬ d.weekday = 4 := by
  rcases hd : r.date with _ | d <;> simp [notFriday, hd]

/-- C10: the date-range filter keeps exactly the rows whose (non-null) date
satisfies `start ≤ date ≤ end`, both endpoints inclusive; the
weekday-exclusion toggle additionally removes exactly the rows whose date
falls on weekday 4; every surviving row passes through unchanged (the view
is a sublist of the input, so all columns are untouched). -/
theorem view_filter_exact (df : List Row) (s e : ℤ) (ex : Bool) :
    (∀ r : Row, r ∈ dfViewOf df s e ex ↔
      (r ∈ df ∧ ∃ d : PDate, r.date = some d ∧ s ≤ d.serial ∧ d.serial ≤ e ∧
        (ex = true → ¬ d.weekday = 4))) ∧
    (dfViewOf df s e ex).Sublist df := by
  constructor
  · intro r
    cases ex
    · simp only [dfViewOf, Bool.false_eq_true, if_false]
      rw [List.mem_filter, inRange_eq_true]
      constructor
      · rintro ⟨hm, d, hd, h1, h2⟩
        exact ⟨hm, d, hd, h1, h2, fun h => h.elim⟩
      · rintro ⟨hm, d, hd, h1, h2, _⟩
        exact ⟨hm, d, hd, h1, h2⟩
    · simp only [dfViewOf, if_true]
      rw [List.mem_filter, List.mem_filter]
      constructor
      · rintro ⟨⟨hm, hr⟩, hf⟩
        rcases inRange_eq_true.mp hr with ⟨d, hd, h1, h2⟩
        exact ⟨hm, d, hd, h1, h2, fun _ => notFriday_eq_true.mp hf d hd⟩
      · rintro ⟨hm, d, hd, h1, h2, hf⟩
        refine ⟨⟨hm, inRange_eq_true.mpr ⟨d, hd, h1, h2⟩⟩, ?_⟩
        refine notFriday_eq_true.mpr (fun d' hd' => ?_)
        rw [hd] at hd'
        exact (Option.some_injective _ hd') ▸ hf trivial
  · cases ex
    · simp only [dfViewOf, Bool.false_eq_true, if_false]
      exact List.filter_sublist df
    · simp only [dfViewOf, if_true]
      exact (List.filter_sublist _).trans (List.filter_sublist df)

theorem view_filter_exact_witness :
    exRow ∈ dfViewOf [exRow] 0 0 true :=
  ((view_filter_exact [exRow] 0 0 true).1 exRow).mpr
    ⟨List.mem_singleton.mpr rfl, ⟨0, 2020⟩, rfl, le_refl 0, le_refl 0,
      fun _ => by decide⟩

/-- C6: the loader consults exactly the files `{prefix}_{year}.xlsx` for
years 2000–2025 (its result depends only on those names), skips files
lacking a date column, derives a `year` column when absent, returns its
rows sorted by date ascending, yields the empty table when no file
matches, and in that case the viewer halts with a user-facing message
instead of proceeding. -/
theorem loader_scan_skip_sort_halt :
    (∀ (fs fs' : String → Option Frame) (kind : String),
        (∀ y ∈ yearRangeList,
          fs (fileNameOf (prefixOf kind) y) = fs' (fileNameOf (prefixOf kind) y)) →
        load_top1_data fs kind = load_top1_data fs' kind) ∧
    (∀ (fs : String → Option Frame) (pre : String) (y : ℕ) (df : Frame),
        fs (fileNameOf pre y) = some df → ¬ "date" ∈ df.cols →
        readYearFile fs pre y = none) ∧
    (∀ df : Frame, "year" ∈ (addYearColumn df).cols ∧
        (¬ "year" ∈ df.cols →
          (addYearColumn df).rows =
            df.rows.map (fun r => { r with year := r.date.map PDate.year }))) ∧
    (∀ (fs : String → Option Frame) (kind : String),
        (load_top1_data fs kind).rows.Pairwise (fun a b => dateLeB a b = true)) ∧
    (∀ (fs : String → Option Frame) (kind : String),
        (∀ y ∈ yearRangeList, fs (fileNameOf (prefixOf kind) y) = none) →
        load_top1_data fs kind = emptyFrame ∧
        viewerGate fs kind = Except.error "엑셀 데이터를 찾을 수 없습니다.") := by
  refine ⟨?_, ?_, ?_, ?_, ?_⟩
  · intro fs fs' kind h
    unfold load_top1_data
    rw [List.filterMap_congr (fun y hy => by unfold readYearFile; rw [h y hy])]
    rfl
  · intro fs pre y df hfs hdate
    unfold readYearFile
    rw [hfs]
    exact if_neg hdate
  · intro df
    constructor
    · by_cases hy : "year" ∈ df.cols
      · simp [addYearColumn, hy]
      · simp [addYearColumn, hy]
    · intro hy
      simp [addYearColumn, hy]
  · intro fs kind
    simp only [load_top1_data]
    by_cases he : (yearRangeList.filterMap (readYearFile fs (prefixOf kind))).isEmpty = true
    · rw [if_pos he]
      exact List.Pairwise.nil
    · rw [if_neg he]
      exact sortByDate_pairwise _
  · intro fs kind h
    have hnil : yearRangeList.filterMap (readYearFile fs (prefixOf kind)) = [] :=
      List.filterMap_eq_nil_iff.mpr (fun y hy => by unfold readYearFile; rw [h y hy])
    have hload : load_top1_data fs kind = emptyFrame := by
      simp only [load_top1_data, hnil]
      rfl
    refine ⟨hload, ?_⟩
    unfold viewerGate
    rw [hload]
    rfl

theorem loader_scan_skip_sort_halt_witness :
    readYearFile (fun _ => some emptyFrame) "top1_volume" 2000 = none ∧
    (addYearColumn emptyFrame).rows =
      emptyFrame.rows.map (fun r => { r with year := r.date.map PDate.year }) ∧
    load_top1_data (fun _ => none) "volume" = emptyFrame ∧
    viewerGate (fun _ => none) "volume" = Except.error "엑셀 데이터를 찾을 수 없습니다." :=
  ⟨loader_scan_skip_sort_halt.2.1 (fun _ => some emptyFrame) "top1_volume" 2000 emptyFrame
      rfl (by simp [emptyFrame]),
   (loader_scan_skip_sort_halt.2.2.1 emptyFrame).2 (by simp [emptyFrame]),
   (loader_scan_skip_sort_halt.2.2.2.2 (fun _ => none) "volume" (fun _ _ => rfl)).1,
   (loader_scan_skip_sort_halt.2.2.2.2 (fun _ => none) "volume" (fun _ _ => rfl)).2⟩

theorem dayRecords_cases (fetch : ℤ → Option (List (String × SnapRow)))
    (etfs : ℤ → List String) (nameOf : String → Option String) (d : ℤ) :
    dayRecords fetch etfs nameOf d = [] ∨
    ∃ v w : TopRec, dayRecords fetch etfs nameOf d = [v, w] ∧
      v.rank_type = "VOLUME_TOP" ∧ w.rank_type = "VALUE_TOP" ∧ v.date = d ∧ w.date = d := by
  unfold dayRecords
  split
  · exact Or.inl rfl
  · split
    · exact Or.inl rfl
    · exact Or.inr ⟨_, _, rfl, rfl, rfl, rfl, rfl⟩

theorem dayRecords_eq_nil_iff (fetch : ℤ → Option (List (String × SnapRow)))
    (etfs : ℤ → List String) (nameOf : String → Option String) (d : ℤ) :
    dayRecords fetch etfs nameOf d = [] ↔
      (fetch d = none ∨
        ∃ snap, fetch d = some snap ∧ snap.filter (fun p => decide (p.1 ∉ etfs d)) = []) := by
  unfold dayRecords
  split
  · next hf => simp [hf]
  · next snap hf =>
    split
    · next hs => exact ⟨fun _ => Or.inr ⟨snap, hf, hs⟩, fun _ => rfl⟩
    · next x xs hs =>
      constructor
      · intro h
        exact absurd h (List.cons_ne_nil _ _)
      · rintro (hn | ⟨snap2, hsnap, hfil⟩)
        · rw [hf] at hn
          cases hn
        · rw [hf] at hsnap
          injection hsnap with he
          subst he
          rw [hs] at hfil
          exact absurd hfil (List.cons_ne_nil x xs)

theorem mem_dayRecords_date {fetch : ℤ → Option (List (String × SnapRow))}
    {etfs : ℤ → List String} {nameOf : String → Option String} {d : ℤ} {r : TopRec}
    (h : r ∈ dayRecords fetch etfs nameOf d) : r.date = d := by
  unfold dayRecords at h
  split at h
  · cases h
  · split at h
    · cases h
    · rcases List.mem_cons.mp h with rfl | h2
      · rfl
      · rcases List.mem_cons.mp h2 with rfl | h3
        · rfl
        · cases h3

theorem countP_dayRecords_le_one (fetch : ℤ → Option (List (String × SnapRow)))
    (etfs : ℤ → List String) (nameOf : String → Option String) (d d2 : ℤ) (rt : String)
    (hrt : rt = "VOLUME_TOP" ∨ rt = "VALUE_TOP") :
    (dayRecords fetch etfs nameOf d).countP
      (fun r => decide (r.date = d2) && decide (r.rank_type = rt)) ≤ 1 := by
  rcases dayRecords_cases fetch etfs nameOf d with h0 | ⟨v, w, heq, hv, hw, hvd, hwd⟩
  · rw [h0]
    exact Nat.zero_le 1
  · rw [heq]
    rcases hrt with rfl | rfl <;>
      simp [List.countP_cons, List.countP_nil, hv, hw] <;> split <;> simp

/-- C7: each trading day contributes exactly two records — one VOLUME_TOP
and one VALUE_TOP, both dated that day — unless the day's snapshot could
not be fetched or is empty after ETF exclusion, in which case it
contributes zero records (and exactly then); hence over distinct trading
days the emitted set holds at most one VOLUME_TOP and at most one
VALUE_TOP row per date. -/
theorem collector_day_pairs :
    (∀ (fetch : ℤ → Option (List (String × SnapRow))) (etfs : ℤ → List String)
        (nameOf : String → Option String) (d : ℤ),
        dayRecords fetch etfs nameOf d = [] ∨
        ∃ v w : TopRec, dayRecords fetch etfs nameOf d = [v, w] ∧
          v.rank_type = "VOLUME_TOP" ∧ w.rank_type = "VALUE_TOP" ∧ v.date = d ∧ w.date = d) ∧
    (∀ (fetch : ℤ → Option (List (String × SnapRow))) (etfs : ℤ → List String)
        (nameOf : String → Option String) (d : ℤ),
        dayRecords fetch etfs nameOf d = [] ↔
          (fetch d = none ∨ ∃ snap, fetch d = some snap ∧
            snap.filter (fun p => decide (p.1 ∉ etfs d)) = [])) ∧
    (∀ (fetch : ℤ → Option (List (String × SnapRow))) (etfs : ℤ → List String)
        (nameOf : String → Option String) (days : List ℤ), days.Nodup →
        ∀ (d : ℤ) (rt : String), rt = "VOLUME_TOP" ∨ rt = "VALUE_TOP" →
        (get_top1_by_day fetch etfs nameOf days).countP
          (fun r => decide (r.date = d) && decide (r.rank_type = rt)) ≤ 1) := by
  refine ⟨dayRecords_cases, dayRecords_eq_nil_iff, ?_⟩
  intro fetch etfs nameOf days hnd d rt hrt
  unfold get_top1_by_day
  refine countP_flatMap_le_one _ _ days hnd d ?_ ?_
  · exact countP_dayRecords_le_one fetch etfs nameOf d d rt hrt
  · intro b hb hbd
    refine List.countP_eq_zero.mpr ?_
    intro r hr
    have hdate := mem_dayRecords_date hr
    simp [hdate, hbd]

theorem collector_day_pairs_witness :
    (get_top1_by_day (fun _ => some [("AAA", ⟨1, 2, 3, 4, 10, 20⟩)])
        (fun _ => []) (fun _ => none) [5]).countP
      (fun r => decide (r.date = 5) && decide (r.rank_type = "VOLUME_TOP")) ≤ 1 :=
  collector_day_pairs.2.2 (fun _ => some [("AAA", ⟨1, 2, 3, 4, 10, 20⟩)])
    (fun _ => []) (fun _ => none) [5] (by decide) 5 "VOLUME_TOP" (Or.inl rfl)

/-- The year written as `2000 + a` for an offset `a < 26`; used to make the
file-name disambiguation over the fixed year range decidable. -/
def finYear (a : Fin 26) : ℤ := ((2000 + (a : ℕ) : ℕ) : ℤ)

theorem fileName_grid : ∀ a b : Fin 26,
    (volFileName (finYear a) = volFileName (finYear b) → a = b) ∧
    volFileName (finYear a) ≠ valFileName (finYear b) ∧
    (valFileName (finYear a) = valFileName (finYear b) → a = b) := by decide

theorem int_year_to_fin {y : ℤ} (h1 : 2000 ≤ y) (h2 : y ≤ 2025) :
    ∃ a : Fin 26, y = finYear a := by
  refine ⟨⟨(y - 2000).toNat, by omega⟩, ?_⟩
  simp only [finYear]
  omega

theorem volFileName_inj {y z : ℤ} (hy1 : 2000 ≤ y) (hy2 : y ≤ 2025)
    (hz1 : 2000 ≤ z) (hz2 : z ≤ 2025) (h : volFileName y = volFileName z) : y = z := by
  obtain ⟨a, rfl⟩ := int_year_to_fin hy1 hy2
  obtain ⟨b, rfl⟩ := int_year_to_fin hz1 hz2
  exact congrArg finYear ((fileName_grid a b).1 h)

theorem valFileName_inj {y z : ℤ} (hy1 : 2000 ≤ y) (hy2 : y ≤ 2025)
    (hz1 : 2000 ≤ z) (hz2 : z ≤ 2025) (h : valFileName y = valFileName z) : y = z := by
  obtain ⟨a, rfl⟩ := int_year_to_fin hy1 hy2
  obtain ⟨b, rfl⟩ := int_year_to_fin hz1 hz2
  exact congrArg finYear ((fileName_grid a b).2.2 h)

theorem volFileName_ne_val {y z : ℤ} (hy1 : 2000 ≤ y) (hy2 : y ≤ 2025)
    (hz1 : 2000 ≤ z) (hz2 : z ≤ 2025) : volFileName y ≠ valFileName z := by
  obtain ⟨a, rfl⟩ := int_year_to_fin hy1 hy2
  obtain ⟨b, rfl⟩ := int_year_to_fin hz1 hz2
  exact (fileName_grid a b).2.1

theorem mem_yearWrites {df : List FinalRow} {y : ℤ} {w : String × List FinalRow}
    (h : w ∈ yearWrites df y) :
    (2000 ≤ y ∧ y ≤ 2025) ∧ w.2 ≠ [] ∧
      ((w.1 = volFileName y ∧ w.2 = volPartition df y) ∨
       (w.1 = valFileName y ∧ w.2 = valPartition df y)) := by
  unfold yearWrites at h
  by_cases hy : y < 2000 ∨ 2025 < y
  · rw [if_pos hy] at h
    cases h
  · rw [if_neg hy] at h
    push_neg at hy
    refine ⟨hy, ?_⟩
    rcases List.mem_append.mp h with h1 | h1
    · by_cases hv : volPartition df y = []
      · rw [if_pos hv] at h1
        cases h1
      · rw [if_neg hv] at h1
        rcases List.mem_singleton.mp h1 with rfl
        exact ⟨hv, Or.inl ⟨rfl, rfl⟩⟩
    · by_cases hv : valPartition df y = []
      · rw [if_pos hv] at h1
        cases h1
      · rw [if_neg hv] at h1
        rcases List.mem_singleton.mp h1 with rfl
        exact ⟨hv, Or.inr ⟨rfl, rfl⟩⟩

theorem countP_yearWrites_vol_self (df : List FinalRow) {y : ℤ}
    (hy1 : 2000 ≤ y) (hy2 : y ≤ 2025) :
    (yearWrites df y).countP (fun w => decide (w.1 = volFileName y)) ≤ 1 := by
  unfold yearWrites
  rw [if_neg (by omega : ¬ (y < 2000 ∨ 2025 < y)), List.countP_append]
  have hA : (if volPartition df y = [] then ([] : List (String × List FinalRow))
      else [(volFileName y, volPartition df y)]).countP
        (fun w => decide (w.1 = volFileName y)) ≤ 1 := by
    split <;> simp [List.countP_cons]
  have hB : (if valPartition df y = [] then ([] : List (String × List FinalRow))
      else [(valFileName y, valPartition df y)]).countP
        (fun w => decide (w.1 = volFileName y)) = 0 := by
    split
    · rfl
    · simp [List.countP_cons]
      exact fun h => volFileName_ne_val hy1 hy2 hy1 hy2 h.symm
  omega

theorem countP_yearWrites_val_self (df : List FinalRow) {y : ℤ}
    (hy1 : 2000 ≤ y) (hy2 : y ≤ 2025) :
    (yearWrites df y).countP (fun w => decide (w.1 = valFileName y)) ≤ 1 := by
  unfold yearWrites
  rw [if_neg (by omega : ¬ (y < 2000 ∨ 2025 < y)), List.countP_append]
  have hA : (if volPartition df y = [] then ([] : List (String × List FinalRow))
      else [(volFileName y, volPartition df y)]).countP
        (fun w => decide (w.1 = valFileName y)) = 0 := by
    split
    · rfl
    · simp [List.countP_cons]
      exact volFileName_ne_val hy1 hy2 hy1 hy2
  have hB : (if valPartition df y = [] then ([] : List (String × List FinalRow))
      else [(valFileName y, valPartition df y)]).countP
        (fun w => decide (w.1 = valFileName y)) ≤ 1 := by
    split <;> simp [List.countP_cons]
  omega

theorem countP_yearWrites_vol_other (df : List FinalRow) {b y : ℤ}
    (hy1 : 2000 ≤ y) (hy2 : y ≤ 2025) (hne : b ≠ y) :
    (yearWrites df b).countP (fun w => decide (w.1 = volFileName y)) = 0 := by
  refine List.countP_eq_zero.mpr (fun w hw => ?_)
  obtain ⟨⟨hb1, hb2⟩, _, hca⟩ := mem_yearWrites hw
  rcases hca with ⟨hn, _⟩ | ⟨hn, _⟩
  · simp only [hn, decide_eq_true_eq]
    exact fun h => hne (volFileName_inj hb1 hb2 hy1 hy2 h)
  · simp only [hn, decide_eq_true_eq]
    exact fun h => volFileName_ne_val hy1 hy2 hb1 hb2 h.symm

theorem countP_yearWrites_val_other (df : List FinalRow) {b y : ℤ}
    (hy1 : 2000 ≤ y) (hy2 : y ≤ 2025) (hne : b ≠ y) :
    (yearWrites df b).countP (fun w => decide (w.1 = valFileName y)) = 0 := by
  refine List.countP_eq_zero.mpr (fun w hw => ?_)
  obtain ⟨⟨hb1, hb2⟩, _, hca⟩ := mem_yearWrites hw
  rcases hca with ⟨hn, _⟩ | ⟨hn, _⟩
  · simp only [hn, decide_eq_true_eq]
    exact fun h => volFileName_ne_val hb1 hb2 hy1 hy2 h
  · simp only [hn, decide_eq_true_eq]
    exact fun h => hne (valFileName_inj hb1 hb2 hy1 hy2 h)

/-- A concrete one-row final table used by the writer witness. -/
def wDf0 : List FinalRow := [⟨0, "VOLUME_TOP", "AAA", 2020⟩]

/-- C8: every file the save loop writes is a nonempty (year, rank_type)
partition named `top1_volume_{year}.xlsx` or `top1_value_{year}.xlsx` for a
year within [2000, 2025]; each partition yields at most one file; and a
partition with zero rows produces no file. -/
theorem writer_partition_files :
    (∀ (df : List FinalRow) (w : String × List FinalRow), w ∈ saveWrites df →
        ∃ y : ℤ, 2000 ≤ y ∧ y ≤ 2025 ∧ w.2 ≠ [] ∧
          ((w.1 = volFileName y ∧ w.2 = volPartition df y) ∨
           (w.1 = valFileName y ∧ w.2 = valPartition df y))) ∧
    (∀ (df : List FinalRow) (y : ℤ), 2000 ≤ y → y ≤ 2025 →
        (saveWrites df).countP (fun w => decide (w.1 = volFileName y)) ≤ 1 ∧
        (saveWrites df).countP (fun w => decide (w.1 = valFileName y)) ≤ 1) ∧
    (∀ (df : List FinalRow) (y : ℤ), 2000 ≤ y → y ≤ 2025 →
        volPartition df y = [] → ∀ w ∈ saveWrites df, w.1 ≠ volFileName y) ∧
    (∀ (df : List FinalRow) (y : ℤ), 2000 ≤ y → y ≤ 2025 →
        valPartition df y = [] → ∀ w ∈ saveWrites df, w.1 ≠ valFileName y) := by
  refine ⟨?_, ?_, ?_, ?_⟩
  · intro df w hw
    obtain ⟨y, _, hmem⟩ := List.mem_flatMap.mp hw
    obtain ⟨⟨h1, h2⟩, h3, h4⟩ := mem_yearWrites hmem
    exact ⟨y, h1, h2, h3, h4⟩
  · intro df y hy1 hy2
    constructor
    · exact countP_flatMap_le_one _ _ _ (List.nodup_dedup _) y
        (countP_yearWrites_vol_self df hy1 hy2)
        (fun b _ hne => countP_yearWrites_vol_other df hy1 hy2 hne)
    · exact countP_flatMap_le_one _ _ _ (List.nodup_dedup _) y
        (countP_yearWrites_val_self df hy1 hy2)
        (fun b _ hne => countP_yearWrites_val_other df hy1 hy2 hne)
  · intro df y hy1 hy2 hemp w hw
    obtain ⟨b, _, hmem⟩ := List.mem_flatMap.mp hw
    obtain ⟨⟨hb1, hb2⟩, hne, hca⟩ := mem_yearWrites hmem
    rcases hca with ⟨hn, hp⟩ | ⟨hn, hp⟩
    · intro h
      rw [hn] at h
      have hby : b = y := volFileName_inj hb1 hb2 hy1 hy2 h
      rw [hby] at hp
      rw [hp, hemp] at hne
      exact hne rfl
    · intro h
      rw [hn] at h
      exact volFileName_ne_val hy1 hy2 hb1 hb2 h.symm
  · intro df y hy1 hy2 hemp w hw
    obtain ⟨b, _, hmem⟩ := List.mem_flatMap.mp hw
    obtain ⟨⟨hb1, hb2⟩, hne, hca⟩ := mem_yearWrites hmem
    rcases hca with ⟨hn, hp⟩ | ⟨hn, hp⟩
    · intro h
      rw [hn] at h
      exact volFileName_ne_val hb1 hb2 hy1 hy2 h
    · intro h
      rw [hn] at h
      have hby : b = y := valFileName_inj hb1 hb2 hy1 hy2 h
      rw [hby] at hp
      rw [hp, hemp] at hne
      exact hne rfl

theorem writer_partition_files_witness :
    ((saveWrites wDf0).countP (fun w => decide (w.1 = volFileName 2020)) ≤ 1) ∧
    ((volFileName 2020, volPartition wDf0 2020).1 ≠ volFileName 2021) :=
  ⟨(writer_partition_files.2.1 wDf0 2020 (by norm_num) (by norm_num)).1,
   writer_partition_files.2.2.1 wDf0 2021 (by norm_num) (by norm_num) rfl
     (volFileName 2020, volPartition wDf0 2020) (by decide)⟩
